import Mathlib

/-!
Shallow embedding of the asab raft core (src/asab/raft/rpc.py and
src/asab/raft/service.py): the JSON-RPC dispatch runtime and the Raft
role state machine, together with theorems settling the specification
claims about them.

Python dictionaries are modelled as association lists, Python `None` as
`Option.none` or `Json.null`, Python `assert` statements as explicit
boolean flags in the returned effects, and the mutation of `self` as
explicit state passing.
-/

/-- A JSON value, as produced by `json.loads` on a datagram payload. -/
inductive Json where
  | null : Json
  | bool : Bool → Json
  | num : Int → Json
  | str : String → Json
  | arr : List Json → Json
  | obj : List (String × Json) → Json

/-- `v is None` in Python, for values that came from JSON. -/
def Json.isNull : Json → Bool
  | .null => true
  | _ => false

/-- `d.get(k)` on a JSON object: the field value, or null when absent. -/
def Json.get (j : Json) (k : String) : Json :=
  match j with
  | .obj fields => (fields.lookup k).getD Json.null
  | _ => Json.null

/-- A UDP peer address: (host, port). -/
abbrev Addr := String × Nat

namespace Rpc

/-- The `Result` slot of an `ACall`: Python stores either `None`, a JSON
value, or one of the two sentinel classes `asyncio.CancelledError` /
`asyncio.TimeoutError`. -/
inductive ResultSlot where
  | pending : ResultSlot
  | value : Json → ResultSlot
  | cancelledMarker : ResultSlot
  | timeoutMarker : ResultSlot

/-- `self.Result is None` in the Python assertions. -/
def ResultSlot.isPending : ResultSlot → Bool
  | .pending => true
  | _ => false

/-- An outstanding awaitable call record (class `ACall` in rpc.py).
`TimeoutAt` is the absolute deadline; `ReplyEventSet` models
`self.ReplyEvent.is_set()`. -/
structure ACall where
  RequestId : String
  PeerAddress : Addr
  Result : ResultSlot
  Error : Json
  ReplyEventSet : Bool
  TimeoutAt : Int

/-- `ACall.send`: complete the call with a result value.  The Python method
asserts that the peer address matches and that the call is not yet
completed; the returned flag is false when an assertion fails (in which
case the record is left unmodified, since the exception is raised before
any assignment). -/
def ACall.send (a : ACall) (peer_address : Addr) (result : Json) : ACall × Bool :=
  if a.PeerAddress = peer_address ∧ a.Result.isPending = true ∧ a.Error.isNull = true then
    ({ a with Result := .value result, ReplyEventSet := true }, true)
  else
    (a, false)

/-- `ACall.send_error`: complete the call with an error object, under the
same assertions as `ACall.send`. -/
def ACall.send_error (a : ACall) (peer_address : Addr) (error : Json) : ACall × Bool :=
  if a.PeerAddress = peer_address ∧ a.Result.isPending = true ∧ a.Error.isNull = true then
    ({ a with Error := error, ReplyEventSet := true }, true)
  else
    (a, false)

/-- `ACall.cancel`: if the reply event is not yet set, store the
cancellation marker and set the event. -/
def ACall.cancel (a : ACall) : ACall :=
  if a.ReplyEventSet then a
  else { a with Result := .cancelledMarker, ReplyEventSet := true }

/-- What `ACall.wait` does once the reply event is set: raise a typed RPC
error, a cancellation error, a timeout error, or return the result value. -/
inductive WaitOutcome where
  | value : Json → WaitOutcome
  | rpcErr : Json → Json → Json → WaitOutcome
  | cancelledErr : WaitOutcome
  | timeoutErr : WaitOutcome

/-- The outcome `ACall.wait` delivers to the awaiter after the reply event
is set (the body of `wait` after `await self.ReplyEvent.wait()`). -/
def ACall.waitOutcome (a : ACall) : WaitOutcome :=
  if a.Error.isNull = false then
    .rpcErr (a.Error.get "code") (a.Error.get "message") (a.Error.get "data")
  else
    match a.Result with
    | .cancelledMarker => .cancelledErr
    | .timeoutMarker => .timeoutErr
    | .value v => .value v
    | .pending => .value Json.null

/-- The outstanding-call register `self.ACallRegister`, a dict keyed by
request id. -/
abbrev Register := List (String × ACall)

/-- `dict.pop(key, None)`: the removed value (if any) and the remaining
register. -/
def popAssoc : Register → String → Option ACall × Register
  | [], _ => (none, [])
  | (k, v) :: rest, key =>
    if k = key then (some v, rest)
    else
      let r := popAssoc rest key
      (r.1, (k, v) :: r.2)

/-- `RPC.finalize`: cancel every registered outstanding call.  Note that
the register itself is not emptied. -/
def finalize (reg : Register) : Register :=
  reg.map (fun kv => (kv.1, kv.2.cancel))

/-- What a method handler does: return a value (possibly null), raise a
typed `RPCError`, or raise some other exception. -/
inductive HandlerResult where
  | ret : Json → HandlerResult
  | raiseRPC : Int → String → Option Json → HandlerResult
  | raiseExn : String → String → HandlerResult

/-- A bound RPC method handler, taking the peer address and the params. -/
abbrev Handler := Addr → Json → HandlerResult

/-- The RPC method registry `self.RPCMethods`. -/
abbrev Methods := List (String × Handler)

/-- `RPC.rpc_dispatch_method`: built-in Ping echo, then registry lookup,
then `RPCError(-32601, "Method not found", data=method)`. -/
def rpc_dispatch_method (methods : Methods) (peer_address : Addr)
    (method : String) (params : Json) : HandlerResult :=
  if method = "Ping" then
    if params.isNull = true then .ret (Json.str "Pong") else .ret params
  else
    match methods.lookup method with
    | some m => m peer_address params
    | none => .raiseRPC (-32601) "Method not found" (some (Json.str method))

/-- Observable outcome of dispatching an inbound result or error frame. -/
inductive DispatchOutcome where
  | unknownId : DispatchOutcome
  | completed : ACall → Bool → DispatchOutcome

/-- `RPC.rpc_dispatch_result`: pop the outstanding call by id; on a miss
log and return; on a hit complete the call via `ACall.send`.  The source
invokes nothing else on a hit (in particular no per-method result
handler).  The flag in `completed` is false when the assertions inside
`ACall.send` fail, in which case the exception propagates to `on_recv`
with the register already missing the popped record. -/
def rpc_dispatch_result (reg : Register) (peer_address : Addr)
    (result_id : Option String) (result : Json) : Register × DispatchOutcome :=
  match result_id with
  | none => (reg, .unknownId)
  | some rid =>
    let p := popAssoc reg rid
    match p.1 with
    | none => (reg, .unknownId)
    | some acall =>
      let r := acall.send peer_address result
      (p.2, .completed r.1 r.2)

/-- `RPC.rpc_dispatch_error`: the analogue for inbound error frames. -/
def rpc_dispatch_error (reg : Register) (peer_address : Addr)
    (result_id : Option String) (error : Json) : Register × DispatchOutcome :=
  match result_id with
  | none => (reg, .unknownId)
  | some rid =>
    let p := popAssoc reg rid
    match p.1 with
    | none => (reg, .unknownId)
    | some acall =>
      let r := acall.send_error peer_address error
      (p.2, .completed r.1 r.2)

/-- A parsed inbound JSON-RPC frame, with each field as `request_obj.get`
would deliver it: `jsonrpc` with default value, `method`/`id` as optional
strings, `result`/`error` as JSON values with null standing for absence. -/
structure Frame where
  jsonrpc : String
  id : Option String
  method : Option String
  params : Json
  result : Json
  error : Json

/-- The observable action `on_recv` takes for one inbound frame. -/
inductive RecvAction where
  | dropBadVersion : RecvAction
  | replyResult : Option String → Json → RecvAction
  | replyError : Option String → Int → String → Option Json → RecvAction
  | noReply : RecvAction

/-- The body of `RPC.on_recv` for a single parsed frame: version check,
then request dispatch (with `propagate_error` true only when a `method`
field is present), then result dispatch, then error dispatch.  Exceptions
raised while handling result/error frames are logged without any reply
because `propagate_error` is still false there. -/
def on_recv (methods : Methods) (reg : Register) (peer_address : Addr)
    (f : Frame) : Register × RecvAction :=
  if f.jsonrpc ≠ "2.0" then (reg, .dropBadVersion)
  else
    match f.method with
    | some m =>
      match rpc_dispatch_method methods peer_address m f.params with
      | .ret v => if v.isNull = true then (reg, .noReply) else (reg, .replyResult f.id v)
      | .raiseRPC code message data => (reg, .replyError f.id code message data)
      | .raiseExn name text =>
        (reg, .replyError f.id (-32603) (name ++ ":" ++ text) none)
    | none =>
      if f.result.isNull = false then
        let r := rpc_dispatch_result reg peer_address f.id f.result
        (r.1, .noReply)
      else if f.error.isNull = false then
        let r := rpc_dispatch_error reg peer_address f.id f.error
        (r.1, .noReply)
      else
        (reg, .noReply)

end Rpc

namespace Raft

/-- A timer operation performed on the election or heartbeat timer. -/
inductive TimerOp where
  | electionRestart : TimerOp
  | electionStop : TimerOp
  | heartbeatRestart : TimerOp
  | heartbeatStart : TimerOp
  | heartbeatStop : TimerOp
deriving DecidableEq

/-- A peer record (class `Peer` in service.py).  `Address` is `none` for
the local node itself. -/
structure Peer where
  Address : Option Addr
  Id : String
  VoteGranted : Bool

/-- The mutable state of `RaftService`: the role `State` character
('?', 'F', 'C' or 'L'), the persistent-state dict, the volatile-state
dict, the peer table and the server id. -/
structure RaftState where
  State : Char
  currentTerm : Int
  votedFor : Option String
  log : List Json
  commitIndex : Int
  lastApplied : Int
  Peers : List Peer
  ServerId : String

/-- The side effects of one handler invocation: timer operations in
order, outbound `RPC.call` messages as (destination, method) in order,
and whether every `assert` evaluated during the invocation held. -/
structure Eff where
  timers : List TimerOp
  sent : List (Option Addr × String)
  ok : Bool

/-- No side effect, all assertions trivially satisfied. -/
def Eff.nil : Eff := ⟨[], [], true⟩

/-- `enter_state_follower`: set the role to Follower, stop the heartbeat
timer, restart the election timer with a fresh random duration. -/
def enter_state_follower (s : RaftState) : RaftState × Eff :=
  ({ s with State := 'F' }, ⟨[TimerOp.heartbeatStop, TimerOp.electionRestart], [], true⟩)

/-- The loop body of `send_heartbeat`: one `append_entries` call per peer
with an address, each guarded by `append_entries`'s assertion that the
role state is 'L' at call time. -/
def send_heartbeat_loop (st : Char) : List Peer → List (Option Addr × String) × Bool
  | [] => ([], true)
  | p :: ps =>
    let r := send_heartbeat_loop st ps
    match p.Address with
    | some a => ((some a, "AppendEntries") :: r.1, decide (st = 'L') && r.2)
    | none => r

/-- `enter_state_leader`: set the role to Leader, stop the election
timer, restart the heartbeat timer, and immediately send one round of
heartbeats. -/
def enter_state_leader (s : RaftState) : RaftState × Eff :=
  let s1 : RaftState := { s with State := 'L' }
  let r := send_heartbeat_loop s1.State s1.Peers
  (s1, ⟨[TimerOp.electionStop, TimerOp.heartbeatRestart], r.1, r.2⟩)

/-- `evalute_election` (name as in the source): assert the role is 'C',
tally `VoteGranted` flags over the peer table, and enter the Leader state
on a strict majority. -/
def evalute_election (s : RaftState) : RaftState × Eff :=
  let voted_yes := (s.Peers.filter (fun p => p.VoteGranted)).length
  let voted_no := (s.Peers.filter (fun p => !p.VoteGranted)).length
  if voted_yes > voted_no then
    let r := enter_state_leader s
    (r.1, { r.2 with ok := decide (s.State = 'C') && r.2.ok })
  else
    (s, ⟨[], [], decide (s.State = 'C')⟩)

/-- The peer loop of `enter_state_candidate`: reset each remote peer's
`VoteGranted` and issue `request_vote` to it; pre-grant the local peer. -/
def candidate_peer_loop : List Peer → List Peer × List (Option Addr × String)
  | [] => ([], [])
  | p :: ps =>
    let r := candidate_peer_loop ps
    match p.Address with
    | some a => ({ p with VoteGranted := false } :: r.1, (some a, "RequestVote") :: r.2)
    | none => ({ p with VoteGranted := true } :: r.1, r.2)

/-- `enter_state_candidate`: set the role to Candidate, increment
`currentTerm`, reset the vote flags while soliciting votes, evaluate the
election immediately, and restart both timers if still Candidate. -/
def enter_state_candidate (s : RaftState) : RaftState × Eff :=
  let pr := candidate_peer_loop s.Peers
  let s1 : RaftState := { s with
    State := 'C', currentTerm := s.currentTerm + 1, Peers := pr.1 }
  let r := evalute_election s1
  if r.1.State = 'C' then
    (r.1, ⟨r.2.timers ++ [TimerOp.electionRestart, TimerOp.heartbeatRestart],
      pr.2 ++ r.2.sent, r.2.ok⟩)
  else
    (r.1, ⟨r.2.timers, pr.2 ++ r.2.sent, r.2.ok⟩)

/-- The loop of `_on_heartbeat_timeout` in the Candidate branch:
re-solicit a vote from every peer that has not granted one. -/
def hb_candidate_loop : List Peer → List (Option Addr × String)
  | [] => []
  | p :: ps =>
    if p.VoteGranted then hb_candidate_loop ps
    else (p.Address, "RequestVote") :: hb_candidate_loop ps

/-- `_on_heartbeat_timeout`: heartbeats when Leader, vote re-solicitation
when Candidate, a warning otherwise; always restart the heartbeat timer
with `start`. -/
def on_heartbeat_timeout (s : RaftState) : RaftState × Eff :=
  if s.State = 'L' then
    let r := send_heartbeat_loop s.State s.Peers
    (s, ⟨[TimerOp.heartbeatStart], r.1, r.2⟩)
  else if s.State = 'C' then
    (s, ⟨[TimerOp.heartbeatStart], hb_candidate_loop s.Peers, true⟩)
  else
    (s, ⟨[TimerOp.heartbeatStart], [], true⟩)

/-- The reply dict of the `AppendEntries` server handler. -/
structure AEReply where
  term : Int
  success : Bool
  serverId : String

/-- `append_entries_server` (the `@RPCMethod("AppendEntries")` handler):
the reply dict is built from the pre-call `currentTerm`; a stale term is
rejected without any state change; otherwise `currentTerm` is adopted,
the node falls back to Follower if needed, and the election timer is
restarted. -/
def append_entries_server (s : RaftState) (term : Int) (leaderId : String) :
    RaftState × Eff × AEReply :=
  let ret : AEReply := ⟨s.currentTerm, false, s.ServerId⟩
  if term ≥ s.currentTerm then
    let s1 : RaftState := { s with currentTerm := term }
    let r := if s1.State ≠ 'F' then enter_state_follower s1 else (s1, Eff.nil)
    (r.1, ⟨r.2.timers ++ [TimerOp.electionRestart], r.2.sent, r.2.ok⟩,
      { ret with success := true })
  else
    (s, Eff.nil, ret)

/-- The reply dict of the `RequestVote` server handler; note the source
echoes the request's `term` in the reply. -/
structure RVReply where
  term : Int
  voteGranted : Bool
  serverId : String

/-- `request_vote_server` (the `@RPCMethod("RequestVote")` handler),
with the source's exact guard structure: the vote is granted only when
`votedFor is None or votedFor != candidateId` after the earlier guards. -/
def request_vote_server (s : RaftState) (term : Int) (candidateId : String) :
    RaftState × Eff × RVReply :=
  let ret : RVReply := ⟨term, false, s.ServerId⟩
  if term < s.currentTerm then
    (s, Eff.nil, ret)
  else if s.votedFor ≠ none ∧ s.votedFor ≠ some candidateId then
    (s, Eff.nil, ret)
  else if s.votedFor = none ∨ s.votedFor ≠ some candidateId then
    let s1 : RaftState := { s with votedFor := some candidateId }
    let r := if s1.State = 'C' then enter_state_follower s1 else (s1, Eff.nil)
    (r.1, r.2, { ret with voteGranted := true })
  else
    (s, Eff.nil, ret)

/-- The peer loop of `append_entries_result`: update the first peer whose
address matches; an id of '?' adopts the reply's serverId, a differing id
is only logged (the source assigns nothing in that branch). -/
def ae_result_loop (peer_address : Addr) (serverId : String) : List Peer → List Peer
  | [] => []
  | p :: ps =>
    if p.Address = some peer_address then
      (if p.Id = "?" then { p with Id := serverId } else p) :: ps
    else
      p :: ae_result_loop peer_address serverId ps

/-- `append_entries_result` (the `@RPCResult("AppendEntries")` handler):
only the peer table is touched. -/
def append_entries_result (s : RaftState) (peer_address : Addr)
    (serverId : String) : RaftState :=
  { s with Peers := ae_result_loop peer_address serverId s.Peers }

/-- The peer loop of `request_vote_result`: learn the peer's id as in
`ae_result_loop`; if the reply grants a vote and the peer's flag was not
yet set, flip it and report that the election must be re-evaluated. -/
def rv_result_loop (peer_address : Addr) (voteGranted : Bool) (serverId : String) :
    List Peer → Option (List Peer × Bool)
  | [] => none
  | p :: ps =>
    if p.Address = some peer_address then
      let p1 := if p.Id = "?" then { p with Id := serverId } else p
      if voteGranted && !p.VoteGranted then
        some ({ p1 with VoteGranted := true } :: ps, true)
      else
        some (p1 :: ps, false)
    else
      match rv_result_loop peer_address voteGranted serverId ps with
      | some r => some (p :: r.1, r.2)
      | none => none

/-- `request_vote_result` (the `@RPCResult("RequestVote")` handler):
replies for other terms are ignored; a fresh granted vote flips the
peer's flag and invokes `evalute_election` on the updated state. -/
def request_vote_result (s : RaftState) (peer_address : Addr) (term : Int)
    (voteGranted : Bool) (serverId : String) : RaftState × Eff :=
  if term < s.currentTerm then (s, Eff.nil)
  else if term > s.currentTerm then (s, Eff.nil)
  else
    match rv_result_loop peer_address voteGranted serverId s.Peers with
    | none => (s, Eff.nil)
    | some r =>
      let s1 : RaftState := { s with Peers := r.1 }
      if r.2 then evalute_election s1 else (s1, Eff.nil)

/-- One reactor event delivered to the role machine. -/
inductive Event where
  | electionTimeout : Event
  | heartbeatTimeout : Event
  | appendEntries : Int → String → Event
  | requestVote : Int → String → Event
  | appendEntriesResult : Addr → String → Event
  | requestVoteResult : Addr → Int → Bool → String → Event

/-- Dispatch one event to the corresponding handler. -/
def step (s : RaftState) (e : Event) : RaftState × Eff :=
  match e with
  | .electionTimeout => enter_state_candidate s
  | .heartbeatTimeout => on_heartbeat_timeout s
  | .appendEntries t lid =>
    let r := append_entries_server s t lid
    (r.1, r.2.1)
  | .requestVote t cid =>
    let r := request_vote_server s t cid
    (r.1, r.2.1)
  | .appendEntriesResult a sid => (append_entries_result s a sid, Eff.nil)
  | .requestVoteResult a t vg sid => request_vote_result s a t vg sid

/-- Run a trace of events; the boolean is the conjunction of every
assertion evaluated along the way. -/
def runTrace (s : RaftState) : List Event → RaftState × Bool
  | [] => (s, true)
  | e :: es =>
    let r := step s e
    let rest := runTrace r.1 es
    (rest.1, r.2.ok && rest.2)

end Raft

/-! Concrete instances used by witnesses and counterexamples: a node with
two remote peers, as built by the `RaftService` constructor from a
two-entry `peers` configuration, and small outstanding-call registers. -/

/-- Address of the first remote peer. -/
def addr1 : Addr := ("10.0.0.1", 1701)

/-- Address of the second remote peer. -/
def addr2 : Addr := ("10.0.0.2", 1701)

/-- The local node's peer record: no address, id set from the hostname
and primary port, vote flag initially false. -/
def selfPeer : Raft.Peer := ⟨none, "node0:1701", false⟩

/-- First remote peer record, id not yet learned. -/
def peer1 : Raft.Peer := ⟨some addr1, "?", false⟩

/-- Second remote peer record, id not yet learned. -/
def peer2 : Raft.Peer := ⟨some addr2, "?", false⟩

/-- The state right after `initialize` ran `enter_state_follower`:
Follower, term 0, no vote cast, empty log, three-entry peer table. -/
def initState3 : Raft.RaftState :=
  ⟨'F', 0, none, [], 0, 0, [selfPeer, peer1, peer2], "node0:1701"⟩

/-- A node whose single remote peer's id was already learned as "X". -/
def knownPeerState : Raft.RaftState :=
  ⟨'F', 0, none, [], 0, 0, [selfPeer, ⟨some addr1, "X", false⟩], "node0:1701"⟩

/-- Two-event trace: election timeout, then a granted vote reply from
the first remote peer; it makes the node Leader. -/
def c9traceLeader : List Raft.Event :=
  [Raft.Event.electionTimeout, Raft.Event.requestVoteResult addr1 1 true "s1"]

/-- The same trace followed by a second granted vote reply, now arriving
while the node is already Leader. -/
def c9traceLate : List Raft.Event :=
  [Raft.Event.electionTimeout, Raft.Event.requestVoteResult addr1 1 true "s1",
    Raft.Event.requestVoteResult addr2 1 true "s2"]

/-- A pending outstanding call issued by `acall(peer, "AppendEntries")`. -/
def acallAE : Rpc.ACall := ⟨"AppendEntries:7", addr1, .pending, Json.null, false, 100⟩

/-- A register holding only `acallAE`. -/
def regAE : Rpc.Register := [("AppendEntries:7", acallAE)]

/-- A pending outstanding call issued by `acall(peer, "Ping")`. -/
def acallPing : Rpc.ACall := ⟨"Ping:1", addr1, .pending, Json.null, false, 100⟩

/-- A register holding only `acallPing`. -/
def regPing : Rpc.Register := [("Ping:1", acallPing)]

/-- A state that has already granted its vote: term 1, voted for "c". -/
def votedState : Raft.RaftState :=
  ⟨'F', 1, some "c", [], 0, 0, [selfPeer, peer1, peer2], "node0:1701"⟩

/-- An inbound request frame for an unregistered method "Nope". -/
def nopeFrame : Rpc.Frame :=
  ⟨"2.0", some "Nope:1", some "Nope", Json.null, Json.null, Json.null⟩

/-- A handler that raises a typed `RPCError(418, "teapot")`. -/
def teapotHandler : Rpc.Handler := fun _ _ => .raiseRPC 418 "teapot" none

/-- A registry binding the method "Tea" to `teapotHandler`. -/
def teapotMethods : Rpc.Methods := [("Tea", teapotHandler)]

/-- An inbound request frame for the method "Tea". -/
def teapotFrame : Rpc.Frame :=
  ⟨"2.0", some "Tea:3", some "Tea", Json.null, Json.null, Json.null⟩

/-- A handler that raises a generic exception `ValueError("boom")`. -/
def boomHandler : Rpc.Handler := fun _ _ => .raiseExn "ValueError" "boom"

/-- A registry binding the method "Boom" to `boomHandler`. -/
def boomMethods : Rpc.Methods := [("Boom", boomHandler)]

/-- An inbound request frame for the method "Boom". -/
def boomFrame : Rpc.Frame :=
  ⟨"2.0", some "Boom:2", some "Boom", Json.null, Json.null, Json.null⟩

/-! ### Helper lemmas about the role machine -/

lemma enter_state_follower_fst (s : Raft.RaftState) :
    (Raft.enter_state_follower s).1 = { s with State := 'F' } := rfl

lemma enter_state_leader_fst (s : Raft.RaftState) :
    (Raft.enter_state_leader s).1 = { s with State := 'L' } := rfl

lemma send_heartbeat_loop_ok (ps : List Raft.Peer) :
    (Raft.send_heartbeat_loop 'L' ps).2 = true := by
  induction ps with
  | nil => rfl
  | cons p ps ih =>
    unfold Raft.send_heartbeat_loop
    rcases p.Address with _ | a <;> simp [ih]

lemma evalute_election_fst (s : Raft.RaftState) :
    (Raft.evalute_election s).1 = s ∨
      (Raft.evalute_election s).1 = { s with State := 'L' } := by
  unfold Raft.evalute_election
  dsimp only
  split
  · exact Or.inr rfl
  · exact Or.inl rfl

lemma evalute_election_currentTerm (s : Raft.RaftState) :
    (Raft.evalute_election s).1.currentTerm = s.currentTerm := by
  rcases evalute_election_fst s with h | h <;> rw [h]

lemma evalute_election_votedFor (s : Raft.RaftState) :
    (Raft.evalute_election s).1.votedFor = s.votedFor := by
  rcases evalute_election_fst s with h | h <;> rw [h]

lemma evalute_election_Peers (s : Raft.RaftState) :
    (Raft.evalute_election s).1.Peers = s.Peers := by
  rcases evalute_election_fst s with h | h <;> rw [h]

lemma evalute_election_log (s : Raft.RaftState) :
    (Raft.evalute_election s).1.log = s.log := by
  rcases evalute_election_fst s with h | h <;> rw [h]

lemma evalute_election_commitIndex (s : Raft.RaftState) :
    (Raft.evalute_election s).1.commitIndex = s.commitIndex := by
  rcases evalute_election_fst s with h | h <;> rw [h]

lemma evalute_election_lastApplied (s : Raft.RaftState) :
    (Raft.evalute_election s).1.lastApplied = s.lastApplied := by
  rcases evalute_election_fst s with h | h <;> rw [h]

lemma evalute_election_ServerId (s : Raft.RaftState) :
    (Raft.evalute_election s).1.ServerId = s.ServerId := by
  rcases evalute_election_fst s with h | h <;> rw [h]

lemma evalute_election_ok (s : Raft.RaftState) (h : s.State = 'C') :
    (Raft.evalute_election s).2.ok = true := by
  unfold Raft.evalute_election Raft.enter_state_leader
  dsimp only
  split
  · simp [h, send_heartbeat_loop_ok]
  · simp [h]

lemma candidate_peer_loop_addr_id (ps : List Raft.Peer) :
    (Raft.candidate_peer_loop ps).1.map (fun p => (p.Address, p.Id))
      = ps.map (fun p => (p.Address, p.Id)) := by
  induction ps with
  | nil => rfl
  | cons p ps ih =>
    unfold Raft.candidate_peer_loop
    rcases hp : p.Address with _ | a <;> simp [hp, ih]

lemma enter_state_candidate_fst (s : Raft.RaftState) :
    (Raft.enter_state_candidate s).1
      = (Raft.evalute_election { s with State := 'C', currentTerm := s.currentTerm + 1, Peers := (Raft.candidate_peer_loop s.Peers).1 }).1 := by
  unfold Raft.enter_state_candidate
  dsimp only
  split <;> rfl

lemma on_heartbeat_timeout_fst (s : Raft.RaftState) :
    (Raft.on_heartbeat_timeout s).1 = s := by
  unfold Raft.on_heartbeat_timeout
  split
  · rfl
  · split <;> rfl

lemma append_entries_server_fst_currentTerm (s : Raft.RaftState)
    (term : Int) (leaderId : String) :
    s.currentTerm ≤ (Raft.append_entries_server s term leaderId).1.currentTerm := by
  unfold Raft.append_entries_server
  dsimp only
  split
  · rename_i hge
    split <;> exact hge
  · exact le_refl _

lemma request_vote_server_fst_currentTerm (s : Raft.RaftState)
    (term : Int) (candidateId : String) :
    (Raft.request_vote_server s term candidateId).1.currentTerm = s.currentTerm := by
  unfold Raft.request_vote_server
  dsimp only
  split
  · rfl
  split
  · rfl
  split
  · split <;> rfl
  · rfl

lemma request_vote_result_fst_currentTerm (s : Raft.RaftState) (a : Addr)
    (t : Int) (vg : Bool) (sid : String) :
    (Raft.request_vote_result s a t vg sid).1.currentTerm = s.currentTerm := by
  unfold Raft.request_vote_result
  dsimp only
  split
  · rfl
  split
  · rfl
  split
  · rfl
  · rename_i r heq
    split
    · exact evalute_election_currentTerm _
    · rfl

lemma request_vote_server_grants (s : Raft.RaftState) (t : Int) (cand : String)
    (hvf : s.votedFor = none) (ht : s.currentTerm ≤ t) :
    (Raft.request_vote_server s t cand).2.2.voteGranted = true := by
  unfold Raft.request_vote_server
  dsimp only
  rw [if_neg (not_lt.mpr ht), if_neg (by simp [hvf]), if_pos (Or.inl hvf)]

lemma ae_result_loop_split (a : Addr) (sid : String) (pre post : List Raft.Peer)
    (p : Raft.Peer) (hpre : ∀ q ∈ pre, q.Address ≠ some a) (hp : p.Address = some a) :
    Raft.ae_result_loop a sid (pre ++ p :: post)
      = pre ++ (if p.Id = "?" then { p with Id := sid } else p) :: post := by
  induction pre with
  | nil =>
    simp only [List.nil_append]
    unfold Raft.ae_result_loop
    rw [if_pos hp]
  | cons q qs ih =>
    simp only [List.cons_append]
    unfold Raft.ae_result_loop
    rw [if_neg (hpre q (List.mem_cons_self q qs))]
    rw [ih (fun r hr => hpre r (List.mem_cons_of_mem q hr))]

/-! ### The claims -/

/-- Claim C1: for every inbound AppendEntries request, a request term
strictly below `currentTerm` is answered with `success=false` and the
current term while nothing is changed and no effect is produced;
otherwise `currentTerm` becomes the request's term, the node ends up in
the Follower state, the election timer is restarted and the reply
carries `success=true`. -/
theorem c1_append_entries_server_spec (s : Raft.RaftState) (term : Int)
    (leaderId : String) :
    (term < s.currentTerm →
      Raft.append_entries_server s term leaderId
        = (s, Raft.Eff.nil, ⟨s.currentTerm, false, s.ServerId⟩)) ∧
    (s.currentTerm ≤ term →
      (Raft.append_entries_server s term leaderId).1
          = { s with currentTerm := term, State := 'F' } ∧
      Raft.TimerOp.electionRestart
        ∈ (Raft.append_entries_server s term leaderId).2.1.timers ∧
      (Raft.append_entries_server s term leaderId).2.2
        = ⟨s.currentTerm, true, s.ServerId⟩) := by
  constructor
  · intro h
    unfold Raft.append_entries_server
    rw [if_neg (not_le.mpr h)]
  · intro h
    unfold Raft.append_entries_server
    rw [if_pos h]
    dsimp only
    by_cases hF : s.State = 'F'
    · rw [if_neg (by simp [hF])]
      refine ⟨?_, by simp, rfl⟩
      cases s with
      | mk st ct vf lg ci la ps sid => simp_all
    · rw [if_pos (by simp [hF])]
      exact ⟨rfl, by simp [Raft.enter_state_follower], rfl⟩

/-- Witness for C1 at two concrete inputs: a stale term (0 against
current term 1) and a fresh term (7 against current term 0). -/
theorem c1_append_entries_server_spec_witness :
    Raft.append_entries_server votedState 0 "ldr"
      = (votedState, Raft.Eff.nil, ⟨1, false, "node0:1701"⟩) ∧
    (Raft.append_entries_server initState3 7 "ldr").1
      = { initState3 with currentTerm := 7, State := 'F' } ∧
    (Raft.append_entries_server initState3 7 "ldr").2.2
      = ⟨0, true, "node0:1701"⟩ := by
  refine ⟨(c1_append_entries_server_spec votedState 0 "ldr").1 (by decide), ?_, ?_⟩
  · exact ((c1_append_entries_server_spec initState3 7 "ldr").2 (by decide)).1
  · exact ((c1_append_entries_server_spec initState3 7 "ldr").2 (by decide)).2.2

/-- Claim C2 is violated by the code: after the node grants its vote to
candidate "cand" in term 1, a repeated, identical RequestVote from
"cand" is answered with `voteGranted=false` (the grant guard requires
`votedFor is None or votedFor != candidateId`); only the
different-candidate half of the claim holds (last conjunct). -/
theorem c2_repeated_request_vote_denied :
    (Raft.request_vote_server initState3 1 "cand").2.2.voteGranted = true ∧
    (Raft.request_vote_server initState3 1 "cand").1.votedFor = some "cand" ∧
    (Raft.request_vote_server
        (Raft.request_vote_server initState3 1 "cand").1 1 "cand").2.2.voteGranted
      = false ∧
    (Raft.request_vote_server votedState 1 "d").2.2.voteGranted = false :=
  ⟨rfl, rfl, rfl, rfl⟩

/-- Claim C3, evaluated on the code: for a result frame whose id matches
an outstanding call the dispatcher removes the record and completes the
call with the result value, and that is all it does — the returned
`DispatchOutcome` shows no result-registry handler being invoked, since
`rpc.py` contains no such registry.  A non-matching id is a logged miss
that leaves the register unchanged. -/
theorem c3_dispatch_result_no_handler :
    Rpc.rpc_dispatch_result regAE addr1 (some "AppendEntries:7") (Json.str "ok")
      = ([], Rpc.DispatchOutcome.completed
          ⟨"AppendEntries:7", addr1, .value (Json.str "ok"), Json.null, true, 100⟩ true) ∧
    Rpc.rpc_dispatch_result regAE addr1 (some "RequestVote:9") (Json.str "ok")
      = (regAE, Rpc.DispatchOutcome.unknownId) :=
  ⟨rfl, rfl⟩

/-- Claim C4: `currentTerm` is monotonically non-decreasing under every
role-machine operation and hence along every event trace. -/
theorem c4_current_term_monotone :
    (∀ (s : Raft.RaftState) (e : Raft.Event),
      s.currentTerm ≤ (Raft.step s e).1.currentTerm) ∧
    (∀ (s : Raft.RaftState) (tr : List Raft.Event),
      s.currentTerm ≤ (Raft.runTrace s tr).1.currentTerm) := by
  have hstep : ∀ (s : Raft.RaftState) (e : Raft.Event),
      s.currentTerm ≤ (Raft.step s e).1.currentTerm := by
    intro s e
    cases e with
    | electionTimeout =>
      show s.currentTerm ≤ (Raft.enter_state_candidate s).1.currentTerm
      rw [enter_state_candidate_fst, evalute_election_currentTerm]
      dsimp only
      omega
    | heartbeatTimeout =>
      show s.currentTerm ≤ (Raft.on_heartbeat_timeout s).1.currentTerm
      rw [on_heartbeat_timeout_fst]
    | appendEntries t lid => exact append_entries_server_fst_currentTerm s t lid
    | requestVote t cid =>
      exact le_of_eq (request_vote_server_fst_currentTerm s t cid).symm
    | appendEntriesResult a sid => exact le_refl _
    | requestVoteResult a t vg sid =>
      exact le_of_eq (request_vote_result_fst_currentTerm s a t vg sid).symm
  refine ⟨hstep, ?_⟩
  intro s tr
  induction tr generalizing s with
  | nil => exact le_refl _
  | cons e es ih =>
    exact le_trans (hstep s e) (ih (Raft.step s e).1)

/-- Claim C5, evaluated on the code: shutdown cancellation resumes the
awaiter with a cancellation error, but because `finalize` leaves the
cancelled record in the register, a result datagram for the same id
arriving afterwards is found (not dropped as unknown), popped from the
register, and handed to `ACall.send`, whose completion assertion then
fails (final `false`). -/
theorem c5_cancelled_call_late_result :
    (Rpc.finalize regPing).map (fun kv => kv.2.waitOutcome)
      = [Rpc.WaitOutcome.cancelledErr] ∧
    Rpc.rpc_dispatch_result (Rpc.finalize regPing) addr1 (some "Ping:1") (Json.str "r")
      = ([], Rpc.DispatchOutcome.completed
          ⟨"Ping:1", addr1, .cancelledMarker, Json.null, true, 100⟩ false) :=
  ⟨rfl, rfl⟩

/-- Claim C6: a request frame naming a method that is neither the
built-in Ping nor registered is answered with the JSON-RPC error
`-32601` "Method not found" carrying the method name as data; in every
error branch an error reply is emitted if and only if the inbound frame
carried a method — forward for both error branches (a typed RPC error
is replied with its own code, message and data; a generic handler
exception is replied with code `-32603` and message `"<kind>:<text>"`),
and conversely every emitted error reply comes from a frame that
carried a method. -/
theorem c6_method_not_found_and_reply_iff (methods : Rpc.Methods)
    (reg : Rpc.Register) (peer : Addr) (f : Rpc.Frame) :
    (∀ m : String, f.jsonrpc = "2.0" → f.method = some m → m ≠ "Ping" →
      methods.lookup m = none →
      Rpc.on_recv methods reg peer f
        = (reg, Rpc.RecvAction.replyError f.id (-32601) "Method not found"
            (some (Json.str m)))) ∧
    (∀ (m : String) (code : Int) (message : String) (data : Option Json),
      f.jsonrpc = "2.0" → f.method = some m →
      Rpc.rpc_dispatch_method methods peer m f.params
        = Rpc.HandlerResult.raiseRPC code message data →
      Rpc.on_recv methods reg peer f
        = (reg, Rpc.RecvAction.replyError f.id code message data)) ∧
    (∀ (m : String) (name text : String),
      f.jsonrpc = "2.0" → f.method = some m →
      Rpc.rpc_dispatch_method methods peer m f.params
        = Rpc.HandlerResult.raiseExn name text →
      Rpc.on_recv methods reg peer f
        = (reg, Rpc.RecvAction.replyError f.id (-32603) (name ++ ":" ++ text) none)) ∧
    (∀ (i : Option String) (code : Int) (message : String) (data : Option Json),
      (Rpc.on_recv methods reg peer f).2
        = Rpc.RecvAction.replyError i code message data →
      f.method ≠ none) := by
  refine ⟨?_, ?_, ?_, ?_⟩
  · intro m hv hm hping hlook
    unfold Rpc.on_recv
    rw [if_neg (by simp [hv])]
    rw [hm]
    dsimp only
    unfold Rpc.rpc_dispatch_method
    rw [if_neg hping, hlook]
  · intro m code message data hv hm hd
    unfold Rpc.on_recv
    rw [if_neg (by simp [hv]), hm]
    dsimp only
    rw [hd]
  · intro m name text hv hm hd
    unfold Rpc.on_recv
    rw [if_neg (by simp [hv]), hm]
    dsimp only
    rw [hd]
  · intro i code message data h
    unfold Rpc.on_recv at h
    by_cases hv : f.jsonrpc = "2.0"
    · rw [if_neg (by simp [hv])] at h
      cases hm : f.method with
      | some m => simp [hm]
      | none =>
        rw [hm] at h
        dsimp only at h
        split at h
        · simp at h
        · split at h <;> simp at h
    · rw [if_pos hv] at h
      simp at h

/-- Witness for C6, exercising all four parts: the "Nope" request
against an empty registry yields the -32601 reply; a handler raising a
typed `RPCError(418, "teapot")` is replied verbatim; a handler raising
`ValueError("boom")` is replied with -32603 and "ValueError:boom"; and
the "Nope" frame that produced an error reply carried a method. -/
theorem c6_method_not_found_and_reply_iff_witness :
    Rpc.on_recv [] [] addr1 nopeFrame
      = ([], Rpc.RecvAction.replyError (some "Nope:1") (-32601) "Method not found"
          (some (Json.str "Nope"))) ∧
    Rpc.on_recv teapotMethods [] addr1 teapotFrame
      = ([], Rpc.RecvAction.replyError (some "Tea:3") 418 "teapot" none) ∧
    Rpc.on_recv boomMethods [] addr1 boomFrame
      = ([], Rpc.RecvAction.replyError (some "Boom:2") (-32603)
          ("ValueError" ++ ":" ++ "boom") none) ∧
    nopeFrame.method ≠ none := by
  refine ⟨?_, ?_, ?_, ?_⟩
  · exact (c6_method_not_found_and_reply_iff [] [] addr1 nopeFrame).1
      "Nope" rfl rfl (by decide) rfl
  · exact (c6_method_not_found_and_reply_iff teapotMethods [] addr1 teapotFrame).2.1
      "Tea" 418 "teapot" none rfl rfl rfl
  · exact (c6_method_not_found_and_reply_iff boomMethods [] addr1 boomFrame).2.2.1
      "Boom" "ValueError" "boom" rfl rfl rfl
  · exact (c6_method_not_found_and_reply_iff [] [] addr1 nopeFrame).2.2.2
      (some "Nope:1") (-32601) "Method not found" (some (Json.str "Nope")) (by rfl)

/-- Claim C7: the built-in Ping returns the string "Pong" exactly in the
branch where params is null, and any non-null params value — including
the empty list — is echoed unchanged. -/
theorem c7_ping_echo (methods : Rpc.Methods) (peer : Addr) (params : Json) :
    (params.isNull = true →
      Rpc.rpc_dispatch_method methods peer "Ping" params
        = Rpc.HandlerResult.ret (Json.str "Pong")) ∧
    (params.isNull = false →
      Rpc.rpc_dispatch_method methods peer "Ping" params
        = Rpc.HandlerResult.ret params) := by
  constructor <;> intro h <;> unfold Rpc.rpc_dispatch_method <;> simp [h]

/-- Witness for C7 at null params and at the empty list. -/
theorem c7_ping_echo_witness :
    Rpc.rpc_dispatch_method [] addr1 "Ping" Json.null
      = Rpc.HandlerResult.ret (Json.str "Pong") ∧
    Rpc.rpc_dispatch_method [] addr1 "Ping" (Json.arr [])
      = Rpc.HandlerResult.ret (Json.arr []) :=
  ⟨(c7_ping_echo [] addr1 Json.null).1 rfl, (c7_ping_echo [] addr1 (Json.arr [])).2 rfl⟩

/-- Counterexample to claim C8: a peer already known as "X" receives an
AppendEntries reply with serverId "Y"; the code does not update the
stored id to "Y" (it only logs), so the peer is still "X". -/
theorem c8_id_not_updated_counterexample :
    ¬ ((Raft.append_entries_result knownPeerState addr1 "Y").Peers.map Raft.Peer.Id
        = ["node0:1701", "Y"]) ∧
    (Raft.append_entries_result knownPeerState addr1 "Y").Peers.map Raft.Peer.Id
      = ["node0:1701", "X"] :=
  ⟨by decide, rfl⟩

/-- Claim C8 (amended): the handler locates the first peer whose address
matches; an id still equal to "?" adopts the reply's serverId, while a
differing id is logged but left unchanged; nothing else in the state is
modified. -/
theorem c8_append_entries_result_amended (s : Raft.RaftState) (a : Addr)
    (sid : String) (pre post : List Raft.Peer) (p : Raft.Peer)
    (hsplit : s.Peers = pre ++ p :: post)
    (hpre : ∀ q ∈ pre, q.Address ≠ some a)
    (hp : p.Address = some a) :
    Raft.append_entries_result s a sid
      = { s with Peers := pre ++ (if p.Id = "?" then { p with Id := sid } else p) :: post } := by
  unfold Raft.append_entries_result
  rw [hsplit, ae_result_loop_split a sid pre post p hpre hp]

/-- Witness for C8 (amended): the known-id peer is left as "X". -/
theorem c8_append_entries_result_amended_witness :
    Raft.append_entries_result knownPeerState addr1 "Y"
      = { knownPeerState with
          Peers := [selfPeer] ++ (if (Raft.Peer.mk (some addr1) "X" false).Id = "?"
            then { Raft.Peer.mk (some addr1) "X" false with Id := "Y" }
            else Raft.Peer.mk (some addr1) "X" false) :: [] } :=
  c8_append_entries_result_amended knownPeerState addr1 "Y" [selfPeer] []
    ⟨some addr1, "X", false⟩ rfl (by decide) rfl

/-- Counterexample to claim C9: from a freshly initialised three-node
Follower, an election timeout followed by one granted vote reply makes
the node Leader with every assertion satisfied; a second granted vote
reply then flips the remaining peer's flag and invokes
`evalute_election` while the state is 'L', so its assertion fails. -/
theorem c9_assert_fails_counterexample :
    (Raft.runTrace initState3 c9traceLeader).2 = true ∧
    (Raft.runTrace initState3 c9traceLeader).1.State = 'L' ∧
    (Raft.runTrace initState3 c9traceLate).2 = false :=
  ⟨rfl, rfl, rfl⟩

/-- Claim C9 (amended): the assertion of `evalute_election` holds on
every invocation coming from `enter_state_candidate`, whose whole
execution keeps all assertions satisfied; it is not valid for the
invocation from `request_vote_result`, where a granted vote reply can
arrive while the node is already Leader. -/
theorem c9_candidate_path_assert_ok (s : Raft.RaftState) :
    (Raft.enter_state_candidate s).2.ok = true := by
  unfold Raft.enter_state_candidate
  dsimp only
  split <;> exact evalute_election_ok _ rfl

/-- Claim C10: `enter_state_candidate` leaves `votedFor`, the log, the
volatile indices, the server id, and every peer's address and id
unchanged (it only touches the role state, `currentTerm` and the
`VoteGranted` flags), and because `votedFor` survives, a node that was
unvoted before campaigning still grants its vote to any candidate whose
request term is current. -/
theorem c10_candidate_frame (s : Raft.RaftState) :
    (Raft.enter_state_candidate s).1.votedFor = s.votedFor ∧
    (Raft.enter_state_candidate s).1.log = s.log ∧
    (Raft.enter_state_candidate s).1.commitIndex = s.commitIndex ∧
    (Raft.enter_state_candidate s).1.lastApplied = s.lastApplied ∧
    (Raft.enter_state_candidate s).1.ServerId = s.ServerId ∧
    (Raft.enter_state_candidate s).1.Peers.map (fun p => (p.Address, p.Id))
      = s.Peers.map (fun p => (p.Address, p.Id)) ∧
    (s.votedFor = none → ∀ (cand : String) (t : Int),
      (Raft.enter_state_candidate s).1.currentTerm ≤ t →
      (Raft.request_vote_server (Raft.enter_state_candidate s).1 t cand).2.2.voteGranted
        = true) := by
  rw [enter_state_candidate_fst]
  refine ⟨?_, ?_, ?_, ?_, ?_, ?_, ?_⟩
  · rw [evalute_election_votedFor]
  · rw [evalute_election_log]
  · rw [evalute_election_commitIndex]
  · rw [evalute_election_lastApplied]
  · rw [evalute_election_ServerId]
  · rw [evalute_election_Peers]
    exact candidate_peer_loop_addr_id s.Peers
  · intro hvf cand t ht
    refine request_vote_server_grants _ t cand ?_ ?_
    · rw [evalute_election_votedFor]
      exact hvf
    · exact ht

/-- Witness for C10: starting from the initial three-node state, the
campaigning node still grants its vote to a different candidate "d". -/
theorem c10_candidate_frame_witness :
    (Raft.enter_state_candidate initState3).1.votedFor = none ∧
    (Raft.request_vote_server (Raft.enter_state_candidate initState3).1 1 "d").2.2.voteGranted
      = true := by
  constructor
  · exact (c10_candidate_frame initState3).1
  · exact (c10_candidate_frame initState3).2.2.2.2.2.2 rfl "d" 1 (by decide)
